import Mathlib

/-!
Shallow embedding of `import_jira_csv_to_plane.py`: a tool that imports
Jira CSV rows into a Plane project via its REST API. Strings model Python
strings; `Option String` models values that may be Python `None`; a raised
exception is modelled by `Except String`. Network collaborators (listing
and creation endpoints) are modelled as explicit parameters, and the calls
a function issues are recorded in an `ApiCall` trace.
-/

/-- Python truthiness-based `a or b` where `a` may be `None` (`none`) or a
string; an empty string is falsy and falls through to `b`. -/
def pyOrStr (a : Option String) (b : String) : String :=
  match a with
  | some s => if s = "" then b else s
  | none => b

/-- Python `a or b` on two optional strings, keeping the result optional
(models `proj.get("id") or proj.get("project_id")`). -/
def pyOrOpt (a b : Option String) : Option String :=
  match a with
  | some s => if s = "" then b else some s
  | none => b

/-- Whitespace characters stripped by Python `str.strip()`. -/
def isPySpace (c : Char) : Bool :=
  c = ' ' || c = '\t' || c = '\n' || c = '\r' || c = '\x0b' || c = '\x0c'

/-- Python `str.strip()`: drop leading and trailing whitespace. -/
def pyStrip (s : String) : String :=
  String.mk (((s.toList.dropWhile isPySpace).reverse.dropWhile isPySpace).reverse)

/-- Python `str.lower()` (ASCII case folding, which covers every string the
program compares). -/
def pyLower (s : String) : String :=
  String.mk (s.toList.map Char.toLower)

/-- Normalisation used throughout: Python `.strip().lower()`. -/
def normName (s : String) : String := pyLower (pyStrip s)

/-- Drops `sep` from the front of `l` when `sep` is a prefix of `l`,
returning the remainder. -/
def dropSep : List Char → List Char → Option (List Char)
  | [], l => some l
  | _ :: _, [] => none
  | p :: ps, c :: cs => if p = c then dropSep ps cs else none

/-- Python `str.split(sep)` for a non-empty separator, on character lists:
scan left to right, cutting at each non-overlapping occurrence of the
separator; empty pieces are kept. Structural recursion on a fuel argument
(initialised to the input length, which each step strictly exceeds). -/
def pySplitAux (s0 : Char) (srest : List Char) : Nat → List Char → List Char → List (List Char)
  | _, [], acc => [acc.reverse]
  | 0, l, acc => [acc.reverse ++ l]
  | fuel + 1, c :: cs, acc =>
    match dropSep (s0 :: srest) (c :: cs) with
    | some r => acc.reverse :: pySplitAux s0 srest fuel r []
    | none => pySplitAux s0 srest fuel cs (c :: acc)

/-- Python `str.split(sep)` on strings (Python raises on an empty
separator; that case is never reached by the program and is mapped to the
whole string). -/
def pySplit (s sep : String) : List String :=
  match sep.toList with
  | [] => [s]
  | s0 :: srest => (pySplitAux s0 srest s.toList.length s.toList []).map String.mk

/-- Python `str.replace(",", sep)`: every comma is replaced by the
replacement string (the program only ever replaces the single character
comma). -/
def pyReplaceChar (l : List Char) (target : Char) (rep : List Char) : List Char :=
  (l.map (fun c => if c = target then rep else [c])).flatten

/-- A reference entity (label or workflow state) as returned by the server:
a name and a server-assigned identifier. `id = none` models the placeholder
objects built with `"id": None` in dry-run/offline mode. -/
structure Entity where
  name : String
  id : Option String
deriving Repr, DecidableEq

/-- Payload posted when creating a workflow state (`{"name", "color"}`,
with `"group"` added only on the retry). -/
structure StatePayload where
  name : String
  color : String
  group : Option String
deriving Repr, DecidableEq

/-- Issue-creation payload; `none` in a field models the key being absent
from the Python dict. -/
structure IssuePayload where
  name : String
  description : Option String
  priority : Option String
  state_id : Option String
  label_ids : Option (List String)
deriving Repr, DecidableEq

/-- One HTTP call to the Plane API, as recorded in a trace. -/
inductive ApiCall
  | listProjects
  | listLabels
  | listStates
  | createLabel (name : String)
  | createState (p : StatePayload)
  | createIssue (p : IssuePayload)
deriving Repr, DecidableEq

/-- A call that mutates server state (any POST). -/
def ApiCall.isMutate : ApiCall → Bool
  | .createLabel _ => true
  | .createState _ => true
  | .createIssue _ => true
  | _ => false

/-- Cache built by `list_labels` / `list_states`: a Python dict
comprehension keyed by the normalised entity name, where a later item
overwrites an earlier one with the same key; looking a key up therefore
returns the last matching item of the listing. -/
def cacheOf (items : List Entity) (key : String) : Option Entity :=
  (items.filter (fun e => normName e.name == key)).getLast?

/-- Embeds `parse_labels`: replace commas by the separator, split, trim
each piece, drop empty pieces; empty input yields the empty list. -/
def parse_labels (raw : String) (sep : String) : List String :=
  if raw = "" then []
  else ((pySplit (String.mk (pyReplaceChar raw.toList ',' sep.toList)) sep).map pyStrip).filter
    (fun p => p ≠ "")

/-- Embeds `DEFAULT_PRIORITY_MAP`. -/
def DEFAULT_PRIORITY_MAP : List (String × String) :=
  [("Highest", "urgent"), ("High", "high"), ("Medium", "medium"),
   ("Low", "low"), ("Lowest", "low")]

/-- Embeds `DEFAULT_STATUS_TO_STATE`. -/
def DEFAULT_STATUS_TO_STATE : List (String × String) :=
  [("To Do", "Backlog"), ("Selected for Development", "Unstarted"),
   ("In Progress", "Started"), ("In Review", "Started"),
   ("Done", "Completed"), ("Closed", "Completed")]

/-- Embeds `map_priority`: empty input yields `none`; otherwise an
exact-match lookup of the trimmed input in the priority table. -/
def map_priority (jira_priority : String) : Option String :=
  if jira_priority = "" then none
  else DEFAULT_PRIORITY_MAP.lookup (pyStrip jira_priority)

/-- Embeds `map_state`: empty input yields `none`; otherwise an exact-match
lookup of the trimmed input in the status-to-state table. -/
def map_state (jira_status : String) : Option String :=
  if jira_status = "" then none
  else DEFAULT_STATUS_TO_STATE.lookup (pyStrip jira_status)

/-- Keyword set mapped to the `backlog` group in `infer_state_group`. -/
def BACKLOG_KEYWORDS : List String :=
  ["backlog", "to do", "todo", "unstarted", "selected for development"]

/-- Keyword set mapped to the `started` group in `infer_state_group`. -/
def STARTED_KEYWORDS : List String :=
  ["in progress", "started", "in review", "doing"]

/-- Keyword set mapped to the `completed` group in `infer_state_group`. -/
def COMPLETED_KEYWORDS : List String :=
  ["done", "completed", "closed", "resolved"]

/-- Keyword set mapped to the `cancelled` group in `infer_state_group`. -/
def CANCELLED_KEYWORDS : List String :=
  ["cancelled", "canceled", "wontfix", "won\x27t fix"]

/-- Embeds `infer_state_group`: classify the trimmed lower-cased state name
by keyword membership, defaulting to `"backlog"`. -/
def infer_state_group (state_name : String) : String :=
  if BACKLOG_KEYWORDS.contains (normName state_name) then "backlog"
  else if STARTED_KEYWORDS.contains (normName state_name) then "started"
  else if COMPLETED_KEYWORDS.contains (normName state_name) then "completed"
  else if CANCELLED_KEYWORDS.contains (normName state_name) then "cancelled"
  else "backlog"

/-- A project as returned by the List Projects endpoint; fields may be
missing (`none`) or empty. -/
structure Project where
  id : Option String
  project_id : Option String
  identifier : Option String
  name : Option String
  slug : Option String
deriving Repr, DecidableEq

/-- Character class of the regex `[0-9a-f-]`. -/
def isHexHyphenChar (c : Char) : Bool :=
  c.isDigit || (('a' ≤ c) && (c ≤ 'f')) || c = '-'

/-- Embeds the regex test `re.match(r"^[0-9a-f-]{8,}$", want_norm)`. -/
def looksLikeUuid (s : String) : Bool :=
  s.length ≥ 8 && s.toList.all isHexHyphenChar

/-- Embeds the matching loop of `resolve_project_id`: first project whose
normalised identifier, name or slug equals the normalised input and whose
id (or project_id) is truthy wins; a shape match with a falsy id is passed
over. -/
def firstMatch : List Project → String → Option String
  | [], _ => none
  | proj :: rest, w =>
    let pid := pyOrOpt proj.id proj.project_id
    let ident := normName (pyOrStr proj.identifier "")
    let nm := normName (pyOrStr proj.name "")
    let sl := normName (pyOrStr proj.slug "")
    if w = ident ∨ w = nm ∨ w = sl then
      match pid with
      | some p => if p = "" then firstMatch rest w else some p
      | none => firstMatch rest w
    else firstMatch rest w

/-- Embeds `resolve_project_id`. The List Projects GET is issued first,
unconditionally; only then is the UUID-shape short-circuit checked. A
`none` result models the `RuntimeError` raised when nothing matches. -/
def resolve_project_id (listing : List Project) (want : String) :
    Option String × List ApiCall :=
  let want_norm := normName want
  if looksLikeUuid want_norm then (some want, [ApiCall.listProjects])
  else
    match firstMatch listing want_norm with
    | some pid => (some pid, [ApiCall.listProjects])
    | none => (none, [ApiCall.listProjects])


/-- True when the trace contains a label-creation call. -/
def hasCreateLabel (calls : List ApiCall) : Bool :=
  calls.any (fun c => match c with | .createLabel _ => true | _ => false)

/-- True when the trace contains a state-creation call. -/
def hasCreateState (calls : List ApiCall) : Bool :=
  calls.any (fun c => match c with | .createState _ => true | _ => false)

/-- Number of mutating (POST) calls in a trace. -/
def mutateCount (calls : List ApiCall) : Nat :=
  (calls.filter ApiCall.isMutate).length

/-- Embeds `ensure_label`: list the labels afresh, return the cached entity
on a normalised-name hit, otherwise POST a creation with payload
`{"name": name}`; a failed POST propagates as an error. The trace records
the listing GET and any creation POST. -/
def ensure_label (items : List Entity) (post : String → Except String Entity)
    (name : String) : Except String Entity × List ApiCall :=
  let key := normName name
  match cacheOf items key with
  | some e => (.ok e, [ApiCall.listLabels])
  | none =>
    match post name with
    | .ok e => (.ok e, [ApiCall.listLabels, ApiCall.createLabel name])
    | .error msg => (.error msg, [ApiCall.listLabels, ApiCall.createLabel name])

/-- Embeds `ensure_state`: list the states afresh, return the cached entity
on a normalised-name hit; otherwise POST a minimal payload
`{"name": name, "color": "#9ca3af"}`; if that fails, retry exactly once
with the inferred `group` added, and if the retry also fails re-raise its
error. -/
def ensure_state (items : List Entity) (post : StatePayload → Except String Entity)
    (name : String) : Except String Entity × List ApiCall :=
  let key := normName name
  match cacheOf items key with
  | some e => (.ok e, [ApiCall.listStates])
  | none =>
    let payload : StatePayload := { name := name, color := "#9ca3af", group := none }
    match post payload with
    | .ok e => (.ok e, [ApiCall.listStates, ApiCall.createState payload])
    | .error _ =>
      let payload2 : StatePayload := { payload with group := some (infer_state_group name) }
      match post payload2 with
      | .ok e =>
        (.ok e, [ApiCall.listStates, ApiCall.createState payload, ApiCall.createState payload2])
      | .error msg2 =>
        (.error msg2, [ApiCall.listStates, ApiCall.createState payload, ApiCall.createState payload2])

/-- The minimal creation payload `{"name": name, "color": "#9ca3af"}` of
the first state-creation attempt. -/
def minimalStatePayload (nm : String) : StatePayload :=
  { name := nm, color := "#9ca3af", group := none }

/-- The retry payload: the minimal payload augmented with the inferred
group. -/
def retryStatePayload (nm : String) : StatePayload :=
  { name := nm, color := "#9ca3af", group := some (infer_state_group nm) }

/-- Test harness for label idempotence: call `ensure_label` twice in
sequence, where after a successful creation the listing includes the newly
created entity (appended at the end, as a fresh listing would report it). -/
def ensure_label_twice (items : List Entity) (post : String → Except String Entity)
    (name : String) :
    Except String Entity × Except String Entity × List ApiCall :=
  match ensure_label items post name with
  | (r1, t1) =>
    let items2 := match r1 with
      | .ok e => if hasCreateLabel t1 then items ++ [e] else items
      | .error _ => items
    match ensure_label items2 post name with
    | (r2, t2) => (r1, r2, t1 ++ t2)

/-- Test harness for state idempotence: call `ensure_state` twice in
sequence, where after a successful creation the listing includes the newly
created entity. -/
def ensure_state_twice (items : List Entity) (post : StatePayload → Except String Entity)
    (name : String) :
    Except String Entity × Except String Entity × List ApiCall :=
  match ensure_state items post name with
  | (r1, t1) =>
    let items2 := match r1 with
      | .ok e => if hasCreateState t1 then items ++ [e] else items
      | .error _ => items
    match ensure_state items2 post name with
    | (r2, t2) => (r1, r2, t1 ++ t2)

/-- Command-line flags relevant to the row loop. -/
structure Args where
  label_sep : String
  dry_run : Bool
  offline : Bool
  no_create_labels : Bool
  no_create_states : Bool
deriving Repr, DecidableEq

/-- The server-side creation collaborators (`post` on the three creation
endpoints); an `error` result models an HTTP-level failure raised as an
exception. -/
structure Env where
  createLabel : String → Except String Entity
  createState : StatePayload → Except String Entity
  createIssue : IssuePayload → Except String String

/-- A CSV row as a mapping from column name to cell text. -/
abbrev Row := List (String × String)

/-- Python `row.get(k)`. -/
def rowGet (row : Row) (k : String) : Option String := row.lookup k

/-- Mutable state of the row loop: the two reference caches (each equal to
the server listing, since the cache is rebuilt from a fresh listing after
every creation) and the three counters, plus the log of per-row failures
(row ordinal and cause) printed by the `except` handler. -/
structure St where
  label_cache : List Entity
  state_cache : List Entity
  created_count : Nat
  skipped : Nat
  failures : Nat
  failLog : List (Nat × String)
deriving Repr, DecidableEq

/-- Python truthiness of `lbl_obj and lbl_obj.get("id")` followed by
`label_ids.append(lbl_obj["id"])`. -/
def appendIfTruthyId (ids : List String) (o : Option Entity) : List String :=
  match o with
  | some e =>
    match e.id with
    | some s => if s = "" then ids else ids ++ [s]
    | none => ids
  | none => ids

/-- State-resolution fragment of the row loop (the `if target_state_name:`
block): look the mapped state name up in the cache; if absent and creation
is enabled, either fabricate a placeholder (dry-run/offline) or call
`ensure_state` and rebuild the cache from a fresh listing. An
`ensure_state` failure propagates. Returns the resolved state object, the
updated cache, and the calls issued. -/
def resolveStateStep (args : Args) (env : Env) (state_cache : List Entity)
    (target_state_name : Option String) :
    Except String (Option Entity × List Entity × List ApiCall) :=
  match target_state_name with
  | none => .ok (none, state_cache, [])
  | some tsn =>
    let state_key := normName tsn
    let s0 := cacheOf state_cache state_key
    if s0.isNone && !args.no_create_states then
      if args.dry_run || args.offline then
        .ok (some { name := tsn, id := none }, state_cache, [])
      else
        if args.offline then
          .ok (some { name := tsn, id := none }, state_cache, [])
        else
          match ensure_state state_cache env.createState tsn with
          | (.ok e, calls) =>
            let cache' := if hasCreateState calls then state_cache ++ [e] else state_cache
            .ok (some e, cache', calls ++ [ApiCall.listStates])
          | (.error msg, _) => .error msg
    else
      .ok (s0, state_cache, [])

/-- One iteration of the `for lbl in labels:` loop: look the label up in
the cache; if absent and creation is enabled, either fabricate a
placeholder (dry-run/offline) or call `ensure_label` and rebuild the cache;
append the id to `label_ids` only when it is truthy. An `ensure_label`
failure propagates. -/
def labelStep (args : Args) (env : Env)
    (acc : List String × List Entity × List ApiCall) (lbl : String) :
    Except String (List String × List Entity × List ApiCall) :=
  let (label_ids, label_cache, calls) := acc
  let key := normName lbl
  let l0 := cacheOf label_cache key
  if l0.isNone && !args.no_create_labels then
    if args.dry_run || args.offline then
      .ok (appendIfTruthyId label_ids (some { name := lbl, id := none }), label_cache, calls)
    else
      if args.offline then
        .ok (appendIfTruthyId label_ids (some { name := lbl, id := none }), label_cache, calls)
      else
        match ensure_label label_cache env.createLabel lbl with
        | (.ok e, c) =>
          let cache' := if hasCreateLabel c then label_cache ++ [e] else label_cache
          .ok (appendIfTruthyId label_ids (some e), cache', calls ++ c ++ [ApiCall.listLabels])
        | (.error msg, _) => .error msg
  else
    .ok (appendIfTruthyId label_ids l0, label_cache, calls)

/-- The whole `for lbl in labels:` loop. -/
def labelsFold (args : Args) (env : Env) :
    List String → (List String × List Entity × List ApiCall) →
    Except String (List String × List Entity × List ApiCall)
  | [], acc => .ok acc
  | lbl :: rest, acc =>
    match labelStep args env acc lbl with
    | .ok acc' => labelsFold args env rest acc'
    | .error msg => .error msg

/-- Assembly of the issue payload: start from `{"name": name}` and add
`description`, `priority`, `state_id` and `label_ids` only under the
truthiness conditions of the source. -/
def buildPayload (name description : String) (priority : Option String)
    (state_obj : Option Entity) (label_ids : List String) : IssuePayload :=
  { name := name
    description := if description = "" then none else some description
    priority := match priority with
      | some p => if p = "" then none else some p
      | none => none
    state_id := match state_obj with
      | some o =>
        match o.id with
        | some s => if s = "" then none else some s
        | none => none
      | none => none
    label_ids := if label_ids = [] then none else some label_ids }

/-- Python local `name = (row.get("Summary") or "").strip()`. -/
def rowName (row : Row) : String := pyStrip (pyOrStr (rowGet row "Summary") "")

/-- Python local `description = row.get("Description") or ""`. -/
def rowDescription (row : Row) : String := pyOrStr (rowGet row "Description") ""

/-- Python local `jira_labels_raw = row.get("Labels") or row.get("labels") or ""`. -/
def rowLabelsRaw (row : Row) : String :=
  pyOrStr (rowGet row "Labels") (pyOrStr (rowGet row "labels") "")

/-- Python local `jira_status = row.get("Status") or row.get("status") or ""`. -/
def rowStatus (row : Row) : String :=
  pyOrStr (rowGet row "Status") (pyOrStr (rowGet row "status") "")

/-- Python local `jira_priority = row.get("Priority") or row.get("priority") or ""`. -/
def rowPriority (row : Row) : String :=
  pyOrStr (rowGet row "Priority") (pyOrStr (rowGet row "priority") "")

/-- One iteration of the row loop (`for i, row in enumerate(reader, 1)`):
skip on empty Summary; otherwise resolve state and labels, build the
payload, and either count a simulated creation (dry-run/offline) or POST
the issue, counting success as created and a caught failure as a logged
row failure. A reference-entity creation failure propagates uncaught. -/
def processRow (args : Args) (env : Env) (st : St) (i : Nat) (row : Row) :
    Except String (St × List ApiCall) :=
  let name := rowName row
  if name = "" then
    .ok ({ st with skipped := st.skipped + 1 }, [])
  else
    let description := rowDescription row
    let labels := parse_labels (rowLabelsRaw row) args.label_sep
    let target_state_name := map_state (rowStatus row)
    let priority := map_priority (rowPriority row)
    match resolveStateStep args env st.state_cache target_state_name with
    | .error msg => .error msg
    | .ok (state_obj, state_cache', scalls) =>
      match labelsFold args env labels ([], st.label_cache, []) with
      | .error msg => .error msg
      | .ok (label_ids, label_cache', lcalls) =>
        let payload := buildPayload name description priority state_obj label_ids
        if args.dry_run || args.offline then
          .ok ({ st with
                 state_cache := state_cache'
                 label_cache := label_cache'
                 created_count := st.created_count + 1 }, scalls ++ lcalls)
        else
          match env.createIssue payload with
          | .ok _ =>
            .ok ({ st with
                   state_cache := state_cache'
                   label_cache := label_cache'
                   created_count := st.created_count + 1 },
                 scalls ++ lcalls ++ [ApiCall.createIssue payload])
          | .error msg =>
            .ok ({ st with
                   state_cache := state_cache'
                   label_cache := label_cache'
                   failures := st.failures + 1
                   failLog := st.failLog ++ [(i, msg)] },
                 scalls ++ lcalls ++ [ApiCall.createIssue payload])

/-- The row loop over the remaining rows, with `i` the ordinal of the next
row (Python `enumerate(reader, start=1)` starts it at 1). An uncaught
exception from a row aborts the whole loop. -/
def runRows (args : Args) (env : Env) : St → Nat → List Row → Except String (St × List ApiCall)
  | st, _, [] => .ok (st, [])
  | st, i, row :: rest =>
    match processRow args env st i row with
    | .error msg => .error msg
    | .ok (st', calls) =>
      match runRows args env st' (i + 1) rest with
      | .error msg => .error msg
      | .ok (stf, calls') => .ok (stf, calls ++ calls')

/-- The final summary line: created, skipped and failure counters as
printed by `main`. -/
def runSummary (st : St) : Nat × Nat × Nat := (st.created_count, st.skipped, st.failures)

/-- A row whose stripped Summary is non-empty (the rows that are mapped
rather than skipped). -/
def nonEmptySummary (row : Row) : Bool := !(rowName row == "")

/-- Live-mode flags with the default label separator. -/
def wLiveArgs : Args :=
  { label_sep := ";", dry_run := false, offline := false,
    no_create_labels := false, no_create_states := false }

/-- Dry-run flags. -/
def wDryArgs : Args := { wLiveArgs with dry_run := true }

/-- A well-behaved server: every creation succeeds and the created entity
carries the requested name. -/
def wOkEnv : Env :=
  { createLabel := fun n => .ok { name := n, id := some ("L-" ++ n) }
    createState := fun p => .ok { name := p.name, id := some ("S-" ++ p.name) }
    createIssue := fun _ => .ok "I-1" }

/-- A server whose state-creation endpoint always fails. -/
def wBadStateEnv : Env := { wOkEnv with createState := fun _ => .error "state create failed" }

/-- A server whose issue-creation endpoint always fails. -/
def wBadIssueEnv : Env := { wOkEnv with createIssue := fun _ => .error "500" }

/-- A state-creation endpoint that rejects the minimal payload and accepts
the payload carrying a group. -/
def wRetryPost : StatePayload → Except String Entity := fun p =>
  match p.group with
  | none => .error "group required"
  | some _ => .ok { name := p.name, id := some "S1" }

/-- Empty caches and zeroed counters, as at the start of a run. -/
def wSt0 : St :=
  { label_cache := [], state_cache := [], created_count := 0, skipped := 0,
    failures := 0, failLog := [] }

/-- The end-to-end scenario row of the specification. -/
def wRow : Row :=
  [("Summary", "Fix login"), ("Status", "In Progress"), ("Priority", "High"),
   ("Labels", "auth;urgent")]

/-- The payload built for a row from its resolved state and label ids. -/
def rowPayload (row : Row) (sobj : Option Entity) (ids : List String) : IssuePayload :=
  buildPayload (rowName row) (rowDescription row) (map_priority (rowPriority row)) sobj ids

/-- The loop state after a caught record-creation failure on row `i`:
caches updated, failure counter incremented, failure logged with the row
ordinal and the cause. -/
def failSt (st : St) (sc' lc' : List Entity) (i : Nat) (msg : String) : St :=
  { st with
    state_cache := sc'
    label_cache := lc'
    failures := st.failures + 1
    failLog := st.failLog ++ [(i, msg)] }

theorem cacheOf_append_last (items : List Entity) (e : Entity) (key : String)
    (h : normName e.name = key) : cacheOf (items ++ [e]) key = some e := by
  unfold cacheOf
  rw [List.filter_append]
  simp [h]

/-- C8: splitTags replaces every comma by the primary separator before
splitting, trims each piece and drops empty pieces; an empty input yields
the empty sequence for any separator; `splitTags("a;b,c", ";")` is
`["a","b","c"]`; duplicates are kept. -/
theorem C8_splitTags_behaviour :
    (∀ sep : String, parse_labels "" sep = []) ∧
    parse_labels "a;b,c" ";" = ["a", "b", "c"] ∧
    parse_labels " a ; b " ";" = ["a", "b"] ∧
    parse_labels "a;a" ";" = ["a", "a"] ∧
    (∀ raw sep : String, (parse_labels raw sep).all (fun p => p ≠ "") = true) := by
  refine ⟨fun sep => by simp [parse_labels], by decide, by decide, by decide,
    fun raw sep => ?_⟩
  unfold parse_labels
  split
  · simp
  · simp only [List.all_eq_true]
    intro p hp
    have := (List.mem_filter.mp hp).2
    simpa using this

/-- C9: state-group inference is total, always lands in one of the four
fixed categories, and yields `backlog` for every name outside all keyword
sets. -/
theorem C9_infer_state_group_total (s : String) :
    (infer_state_group s = "backlog" ∨ infer_state_group s = "started" ∨
      infer_state_group s = "completed" ∨ infer_state_group s = "cancelled") ∧
    (BACKLOG_KEYWORDS.contains (normName s) = false →
      STARTED_KEYWORDS.contains (normName s) = false →
      COMPLETED_KEYWORDS.contains (normName s) = false →
      CANCELLED_KEYWORDS.contains (normName s) = false →
      infer_state_group s = "backlog") := by
  constructor
  · simp only [infer_state_group]
    cases h1 : BACKLOG_KEYWORDS.contains (normName s) with
    | true => simp
    | false =>
      cases h2 : STARTED_KEYWORDS.contains (normName s) with
      | true => simp
      | false =>
        cases h3 : COMPLETED_KEYWORDS.contains (normName s) with
        | true => simp
        | false =>
          cases h4 : CANCELLED_KEYWORDS.contains (normName s) with
          | true => simp
          | false => simp
  · intro h1 h2 h3 h4
    simp only [infer_state_group, h1, h2, h3, h4, Bool.false_eq_true, if_false]

/-- Witness for C9 at the empty name: it lies in no keyword set and is
classified `backlog`. -/
theorem C9_witness :
    (infer_state_group "" = "backlog" ∨ infer_state_group "" = "started" ∨
      infer_state_group "" = "completed" ∨ infer_state_group "" = "cancelled") ∧
    infer_state_group "" = "backlog" :=
  ⟨(C9_infer_state_group_total "").1,
    (C9_infer_state_group_total "").2 (by decide) (by decide) (by decide) (by decide)⟩

/-- Counterexample to C1: on the opaque-shaped input `"abc12345-de67"` the
resolver does return the input verbatim, but the List Projects GET has
already been issued — the listing collaborator is invoked. -/
theorem C1_counterexample :
    (resolve_project_id [] "abc12345-de67").1 = some "abc12345-de67" ∧
    ApiCall.listProjects ∈ (resolve_project_id [] "abc12345-de67").2 := by
  decide

/-- C1 (amended): for every input whose normalised form matches the
hex-hyphen shape of length at least 8, the resolver returns the input
verbatim without scanning the listing for a match, but only after issuing
the one unconditional List Projects GET. -/
theorem C1_uuid_returned_verbatim (listing : List Project) (want : String)
    (h : looksLikeUuid (normName want) = true) :
    resolve_project_id listing want = (some want, [ApiCall.listProjects]) := by
  unfold resolve_project_id
  simp [h]

/-- Witness for C1 (amended) at the specification's example input. -/
theorem C1_witness :
    resolve_project_id
      [{ id := some "1", project_id := none, identifier := some "ABC",
         name := some "Project", slug := some "project" }] "abc12345-de67" =
      (some "abc12345-de67", [ApiCall.listProjects]) :=
  C1_uuid_returned_verbatim _ _ (by decide)

/-- C4: for an absent state, creation is first attempted with the minimal
name-plus-colour payload; on failure it is retried exactly once with the
inferred group added; a second failure propagates — the trace shows no
further attempts. -/
theorem C4_state_create_retry (items : List Entity)
    (post : StatePayload → Except String Entity) (nm : String)
    (habsent : cacheOf items (normName nm) = none) :
    (∀ e, post (minimalStatePayload nm) = .ok e →
      ensure_state items post nm =
        (.ok e, [ApiCall.listStates, ApiCall.createState (minimalStatePayload nm)])) ∧
    (∀ m e, post (minimalStatePayload nm) = .error m →
      post (retryStatePayload nm) = .ok e →
      ensure_state items post nm =
        (.ok e, [ApiCall.listStates, ApiCall.createState (minimalStatePayload nm),
          ApiCall.createState (retryStatePayload nm)])) ∧
    (∀ m m2, post (minimalStatePayload nm) = .error m →
      post (retryStatePayload nm) = .error m2 →
      ensure_state items post nm =
        (.error m2, [ApiCall.listStates, ApiCall.createState (minimalStatePayload nm),
          ApiCall.createState (retryStatePayload nm)])) := by
  refine ⟨fun e he => ?_, fun m e hm he => ?_, fun m m2 hm hm2 => ?_⟩
  · unfold ensure_state
    simp [habsent, minimalStatePayload] at he ⊢
    simp [he]
  · unfold ensure_state
    simp [habsent, minimalStatePayload, retryStatePayload] at hm he ⊢
    simp [hm, he]
  · unfold ensure_state
    simp [habsent, minimalStatePayload, retryStatePayload] at hm hm2 ⊢
    simp [hm, hm2]

/-- Witness for C4: with an endpoint that rejects the minimal payload and
accepts the augmented one, `ensure_state` performs exactly the two attempts
and succeeds on the retry. -/
theorem C4_witness :
    ensure_state [] wRetryPost "Done" =
      (.ok { name := "Done", id := some "S1" },
       [ApiCall.listStates, ApiCall.createState (minimalStatePayload "Done"),
        ApiCall.createState (retryStatePayload "Done")]) :=
  (C4_state_create_retry [] wRetryPost "Done" (by decide)).2.1 "group required"
    { name := "Done", id := some "S1" } rfl rfl

/-- C7: a row whose stripped Summary is empty only increments the Skipped
counter: no API call is made, no payload is built, and the other counters
and caches are untouched. -/
theorem C7_empty_summary_row_skipped (args : Args) (env : Env) (st : St) (i : Nat)
    (row : Row) (h : rowName row = "") :
    processRow args env st i row = .ok ({ st with skipped := st.skipped + 1 }, []) := by
  unfold processRow
  simp [h]

/-- Witness for C7 at a whitespace-only Summary. -/
theorem C7_witness :
    processRow wLiveArgs wOkEnv wSt0 1 [("Summary", "   ")] =
      .ok ({ wSt0 with skipped := wSt0.skipped + 1 }, []) :=
  C7_empty_summary_row_skipped wLiveArgs wOkEnv wSt0 1 [("Summary", "   ")] (by decide)

theorem ensure_label_hit (items : List Entity) (post : String → Except String Entity)
    (nm : String) (e0 : Entity) (hc : cacheOf items (normName nm) = some e0) :
    ensure_label items post nm = (.ok e0, [ApiCall.listLabels]) := by
  unfold ensure_label
  simp [hc]

theorem ensure_label_miss_ok (items : List Entity) (post : String → Except String Entity)
    (nm : String) (ec : Entity) (hc : cacheOf items (normName nm) = none)
    (hp : post nm = .ok ec) :
    ensure_label items post nm = (.ok ec, [ApiCall.listLabels, ApiCall.createLabel nm]) := by
  unfold ensure_label
  simp [hc, hp]

theorem ensure_label_twice_hit (items : List Entity) (post : String → Except String Entity)
    (nm : String) (e0 : Entity) (hc : cacheOf items (normName nm) = some e0) :
    ensure_label_twice items post nm =
      (.ok e0, .ok e0, [ApiCall.listLabels, ApiCall.listLabels]) := by
  unfold ensure_label_twice
  simp [ensure_label_hit items post nm e0 hc, hasCreateLabel]

theorem ensure_label_twice_miss (items : List Entity) (post : String → Except String Entity)
    (nm : String) (ec : Entity) (hc : cacheOf items (normName nm) = none)
    (hp : post nm = .ok ec) (hname : normName ec.name = normName nm) :
    ensure_label_twice items post nm =
      (.ok ec, .ok ec,
       [ApiCall.listLabels, ApiCall.createLabel nm, ApiCall.listLabels]) := by
  unfold ensure_label_twice
  have h1 := ensure_label_miss_ok items post nm ec hc hp
  have h2 := ensure_label_hit (items ++ [ec]) post nm ec
    (cacheOf_append_last items ec (normName nm) hname)
  simp [h1, h2, hasCreateLabel]

theorem ensure_label_twice_err (items : List Entity) (post : String → Except String Entity)
    (nm : String) (m : String) (hc : cacheOf items (normName nm) = none)
    (hp : post nm = .error m) :
    (ensure_label_twice items post nm).1 = .error m := by
  unfold ensure_label_twice ensure_label
  simp [hc, hp]

theorem ensure_state_hit (items : List Entity) (post : StatePayload → Except String Entity)
    (nm : String) (e0 : Entity) (hc : cacheOf items (normName nm) = some e0) :
    ensure_state items post nm = (.ok e0, [ApiCall.listStates]) := by
  unfold ensure_state
  simp [hc]

theorem ensure_state_miss_ok1 (items : List Entity) (post : StatePayload → Except String Entity)
    (nm : String) (e : Entity) (hc : cacheOf items (normName nm) = none)
    (hp : post (minimalStatePayload nm) = .ok e) :
    ensure_state items post nm =
      (.ok e, [ApiCall.listStates, ApiCall.createState (minimalStatePayload nm)]) := by
  unfold ensure_state
  simp only [minimalStatePayload] at hp
  simp [hc, hp, minimalStatePayload]

theorem ensure_state_twice_hit (items : List Entity) (post : StatePayload → Except String Entity)
    (nm : String) (e0 : Entity) (hc : cacheOf items (normName nm) = some e0) :
    ensure_state_twice items post nm =
      (.ok e0, .ok e0, [ApiCall.listStates, ApiCall.listStates]) := by
  unfold ensure_state_twice
  simp [ensure_state_hit items post nm e0 hc, hasCreateState]

theorem ensure_state_twice_miss (items : List Entity) (post : StatePayload → Except String Entity)
    (nm : String) (e : Entity) (hc : cacheOf items (normName nm) = none)
    (hp : post (minimalStatePayload nm) = .ok e) (hname : normName e.name = normName nm) :
    ensure_state_twice items post nm =
      (.ok e, .ok e,
       [ApiCall.listStates, ApiCall.createState (minimalStatePayload nm),
        ApiCall.listStates]) := by
  unfold ensure_state_twice
  have h1 := ensure_state_miss_ok1 items post nm e hc hp
  have h2 := ensure_state_hit (items ++ [e]) post nm e
    (cacheOf_append_last items e (normName nm) hname)
  simp [h1, h2, hasCreateState]

/-- C3: calling ensure twice in sequence in live mode against a
well-behaved mock server (creations succeed, the created entity carries
the requested name, and the rebuilt listing includes it) yields the same
entity — hence the same identifier — both times and issues at most one
creation call in total, for labels and for states. -/
theorem C3_ensure_idempotent (items : List Entity)
    (postL : String → Except String Entity) (postS : StatePayload → Except String Entity)
    (nm : String)
    (hL : ∀ n e, postL n = .ok e → normName e.name = normName n)
    (hS : ∀ p e, postS p = .ok e → normName e.name = normName p.name)
    (hSok : ∀ p, ∃ e, postS p = .ok e) :
    (∀ e, (ensure_label_twice items postL nm).1 = .ok e →
      (ensure_label_twice items postL nm).2.1 = .ok e ∧
      mutateCount (ensure_label_twice items postL nm).2.2 ≤ 1) ∧
    (∀ e, (ensure_state_twice items postS nm).1 = .ok e →
      (ensure_state_twice items postS nm).2.1 = .ok e ∧
      mutateCount (ensure_state_twice items postS nm).2.2 ≤ 1) := by
  constructor
  · intro e he
    cases hc : cacheOf items (normName nm) with
    | some e0 =>
      have ht := ensure_label_twice_hit items postL nm e0 hc
      rw [ht] at he ⊢
      simp only [Except.ok.injEq] at he
      simp [he, mutateCount, ApiCall.isMutate]
    | none =>
      cases hp : postL nm with
      | ok ec =>
        have ht := ensure_label_twice_miss items postL nm ec hc hp (hL nm ec hp)
        rw [ht] at he ⊢
        simp only [Except.ok.injEq] at he
        simp [he, mutateCount, ApiCall.isMutate]
      | error m =>
        have ht := ensure_label_twice_err items postL nm m hc hp
        rw [ht] at he
        exact absurd he (by simp)
  · intro e he
    cases hc : cacheOf items (normName nm) with
    | some e0 =>
      have ht := ensure_state_twice_hit items postS nm e0 hc
      rw [ht] at he ⊢
      simp only [Except.ok.injEq] at he
      simp [he, mutateCount, ApiCall.isMutate]
    | none =>
      obtain ⟨e1, hp1⟩ := hSok (minimalStatePayload nm)
      have hname : normName e1.name = normName nm := hS (minimalStatePayload nm) e1 hp1
      have ht := ensure_state_twice_miss items postS nm e1 hc hp1 hname
      rw [ht] at he ⊢
      simp only [Except.ok.injEq] at he
      simp [he, mutateCount, ApiCall.isMutate]

/-- Witness for C3: empty caches and a concrete well-behaved server; both
harnesses return the created entity twice. -/
theorem C3_witness :
    ((ensure_label_twice [] wOkEnv.createLabel "auth").2.1 =
      .ok { name := "auth", id := some "L-auth" } ∧
      mutateCount (ensure_label_twice [] wOkEnv.createLabel "auth").2.2 ≤ 1) ∧
    ((ensure_state_twice [] wOkEnv.createState "Started").2.1 =
      .ok { name := "Started", id := some "S-Started" } ∧
      mutateCount (ensure_state_twice [] wOkEnv.createState "Started").2.2 ≤ 1) := by
  have h := C3_ensure_idempotent [] wOkEnv.createLabel wOkEnv.createState "auth"
    (by intro n e h; injection h with h2; rw [← h2])
    (by intro p e h; injection h with h2; rw [← h2])
    (by intro p; exact ⟨{ name := p.name, id := some ("S-" ++ p.name) }, rfl⟩)
  have h2 := C3_ensure_idempotent [] wOkEnv.createLabel wOkEnv.createState "Started"
    (by intro n e h; injection h with h2; rw [← h2])
    (by intro p e h; injection h with h2; rw [← h2])
    (by intro p; exact ⟨{ name := p.name, id := some ("S-" ++ p.name) }, rfl⟩)
  exact ⟨h.1 { name := "auth", id := some "L-auth" } rfl,
    h2.2 { name := "Started", id := some "S-Started" } rfl⟩

theorem resolveStateStep_simulate (args : Args) (env : Env) (sc : List Entity)
    (tsn : Option String) (hsim : (args.dry_run || args.offline) = true) :
    ∃ so, resolveStateStep args env sc tsn = .ok (so, sc, []) := by
  cases tsn with
  | none => exact ⟨none, rfl⟩
  | some t =>
    unfold resolveStateStep
    by_cases h : ((cacheOf sc (normName t)).isNone && !args.no_create_states) = true
    · exact ⟨some { name := t, id := none }, by simp [h, hsim]⟩
    · exact ⟨cacheOf sc (normName t), by simp [h]⟩

theorem labelStep_simulate (args : Args) (env : Env) (ids : List String)
    (lc : List Entity) (cs : List ApiCall) (lbl : String)
    (hsim : (args.dry_run || args.offline) = true) :
    ∃ ids', labelStep args env (ids, lc, cs) lbl = .ok (ids', lc, cs) := by
  unfold labelStep
  by_cases h : ((cacheOf lc (normName lbl)).isNone && !args.no_create_labels) = true
  · exact ⟨ids, by simp [h, hsim, appendIfTruthyId]⟩
  · exact ⟨appendIfTruthyId ids (cacheOf lc (normName lbl)), by simp [h]⟩

theorem labelsFold_simulate (args : Args) (env : Env)
    (hsim : (args.dry_run || args.offline) = true) :
    ∀ (lbls : List String) (ids : List String) (lc : List Entity) (cs : List ApiCall),
    ∃ ids', labelsFold args env lbls (ids, lc, cs) = .ok (ids', lc, cs) := by
  intro lbls
  induction lbls with
  | nil => exact fun ids lc cs => ⟨ids, rfl⟩
  | cons l rest ih =>
    intro ids lc cs
    obtain ⟨ids1, h1⟩ := labelStep_simulate args env ids lc cs l hsim
    obtain ⟨ids', h2⟩ := ih ids1 lc cs
    refine ⟨ids', ?_⟩
    unfold labelsFold
    simp [h1, h2]

theorem processRow_simulate (args : Args) (env : Env) (st : St) (i : Nat) (row : Row)
    (hsim : (args.dry_run || args.offline) = true) :
    processRow args env st i row = .ok
      ((if nonEmptySummary row then { st with created_count := st.created_count + 1 }
        else { st with skipped := st.skipped + 1 }), []) := by
  unfold processRow
  by_cases hn : rowName row = ""
  · simp [hn, nonEmptySummary]
  · obtain ⟨so, hs⟩ :=
      resolveStateStep_simulate args env st.state_cache (map_state (rowStatus row)) hsim
    obtain ⟨ids', hl⟩ := labelsFold_simulate args env hsim
      (parse_labels (rowLabelsRaw row) args.label_sep) [] st.label_cache []
    simp [hn, hs, hl, hsim, nonEmptySummary]

theorem runRows_simulate (args : Args) (env : Env)
    (hsim : (args.dry_run || args.offline) = true) :
    ∀ (rows : List Row) (st : St) (i : Nat),
    runRows args env st i rows = .ok ({ st with
      created_count := st.created_count + (rows.filter nonEmptySummary).length
      skipped := st.skipped + (rows.filter (fun r => !nonEmptySummary r)).length }, []) := by
  intro rows
  induction rows with
  | nil => intro st i; simp [runRows]
  | cons row rest ih =>
    intro st i
    unfold runRows
    rw [processRow_simulate args env st i row hsim]
    cases hn : nonEmptySummary row with
    | true =>
      simp only [if_true]
      rw [ih]
      simp only [List.filter_cons, hn, Bool.not_true, Except.ok.injEq, Prod.mk.injEq,
        List.length_cons, Bool.false_eq_true, if_false, if_true, and_true]
      constructor
      · simp [St.mk.injEq]
        omega
      · rfl
    | false =>
      simp only [Bool.false_eq_true, if_false]
      rw [ih]
      simp only [List.filter_cons, hn, Bool.not_false, Except.ok.injEq, Prod.mk.injEq,
        List.length_cons, Bool.false_eq_true, if_false, if_true, and_true]
      constructor
      · simp [St.mk.injEq]
        omega
      · rfl

/-- C5: in dry-run or offline mode the row loop issues no API call at all —
in particular no reference-entity creation and no record creation — an
absent state or label is replaced by a placeholder whose identifier is
absent, and such an id-less placeholder is only logged, contributing
nothing to the payload. -/
theorem C5_simulate_no_mutation (args : Args) (env : Env) (st : St) (i : Nat)
    (rows : List Row) (hsim : (args.dry_run || args.offline) = true) :
    ((runRows args env st i rows).map Prod.snd = .ok []) ∧
    (∀ sc tsn, cacheOf sc (normName tsn) = none → args.no_create_states = false →
      resolveStateStep args env sc (some tsn) =
        .ok (some { name := tsn, id := none }, sc, [])) ∧
    (∀ ids lc cs lbl, cacheOf lc (normName lbl) = none → args.no_create_labels = false →
      labelStep args env (ids, lc, cs) lbl = .ok (ids, lc, cs)) := by
  refine ⟨?_, ?_, ?_⟩
  · rw [runRows_simulate args env hsim rows st i]
    rfl
  · intro sc tsn hmiss hnc
    unfold resolveStateStep
    simp [hmiss, hnc, hsim]
  · intro ids lc cs lbl hmiss hnc
    unfold labelStep
    simp [hmiss, hnc, hsim, appendIfTruthyId]

/-- Witness for C5: a dry run over the end-to-end scenario row issues no
call, and placeholders are produced for the absent state and label. -/
theorem C5_witness :
    ((runRows wDryArgs wOkEnv wSt0 1 [wRow]).map Prod.snd = .ok []) ∧
    resolveStateStep wDryArgs wOkEnv [] (some "Started") =
      .ok (some { name := "Started", id := none }, [], []) ∧
    labelStep wDryArgs wOkEnv ([], [], []) "auth" = .ok ([], [], []) := by
  have h := C5_simulate_no_mutation wDryArgs wOkEnv wSt0 1 [wRow] (by decide)
  exact ⟨h.1, h.2.1 [] "Started" rfl rfl, h.2.2 [] [] [] "auth" rfl rfl⟩

/-- C10: in dry-run or offline mode the Created counter is incremented for
every row with a non-empty Summary (the rows whose payload would have been
submitted), and the run summary reports that total in its Created slot. -/
theorem C10_simulate_created_counter (args : Args) (env : Env) (st : St) (i : Nat)
    (rows : List Row) (hsim : (args.dry_run || args.offline) = true) :
    (runRows args env st i rows).map (fun p => (runSummary p.1).1) =
      .ok (st.created_count + (rows.filter nonEmptySummary).length) := by
  rw [runRows_simulate args env hsim rows st i]
  rfl

/-- Witness for C10: a dry run over one mappable row and one empty-Summary
row reports exactly one simulated creation under Created. -/
theorem C10_witness :
    (runRows wDryArgs wOkEnv wSt0 1 [wRow, [("Summary", "")]]).map
        (fun p => (runSummary p.1).1) =
      .ok (wSt0.created_count + ([wRow, [("Summary", "")]].filter nonEmptySummary).length) :=
  C10_simulate_created_counter wDryArgs wOkEnv wSt0 1 [wRow, [("Summary", "")]] (by decide)

theorem map_priority_values (jp p : String) (h : map_priority jp = some p) : p ≠ "" := by
  unfold map_priority at h
  split at h
  · simp at h
  · unfold DEFAULT_PRIORITY_MAP at h
    simp only [List.lookup] at h
    repeat' split at h
    all_goals (intro hp; subst hp; simp_all)

/-- C6: for a mapped row the payload contains description only when the
source description is non-empty, priority exactly as mapped (absent when
unmapped), state_id only when the resolved state entity has a truthy
identifier, and label_ids only when at least one tag resolved; a cached
tag without identifier is dropped without blocking the row. -/
theorem C6_payload_field_presence (nm desc jp : String) (sobj : Option Entity)
    (ids : List String) :
    ((buildPayload nm desc (map_priority jp) sobj ids).description = none ↔ desc = "") ∧
    ((buildPayload nm desc (map_priority jp) sobj ids).priority = map_priority jp) ∧
    ((buildPayload nm desc (map_priority jp) sobj ids).state_id ≠ none ↔
      (∃ o s, sobj = some o ∧ o.id = some s ∧ s ≠ "")) ∧
    ((buildPayload nm desc (map_priority jp) sobj ids).label_ids ≠ none ↔ ids ≠ []) ∧
    (∀ (args : Args) (env : Env) (ids2 : List String) (lc : List Entity)
      (cs : List ApiCall) (lbl : String) (e : Entity),
      cacheOf lc (normName lbl) = some e → e.id = none →
      labelStep args env (ids2, lc, cs) lbl = .ok (ids2, lc, cs)) := by
  refine ⟨?_, ?_, ?_, ?_, ?_⟩
  · unfold buildPayload
    by_cases h : desc = "" <;> simp [h]
  · unfold buildPayload
    cases hp : map_priority jp with
    | none => rfl
    | some p => simp [map_priority_values jp p hp]
  · unfold buildPayload
    cases sobj with
    | none => simp
    | some o =>
      cases ho : o.id with
      | none => simp [ho]
      | some s => by_cases hs : s = "" <;> simp [ho, hs]
  · unfold buildPayload
    by_cases h : ids = [] <;> simp [h]
  · intro args env ids2 lc cs lbl e hc hid
    unfold labelStep
    simp [hc, appendIfTruthyId, hid]

/-- Witness for C6 on a concrete row shape: empty description omitted,
mapped priority present, truthy state id present, one resolved label
present, and an id-less cached tag dropped. -/
theorem C6_witness :
    ((buildPayload "Fix login" "" (map_priority "High")
        (some { name := "Started", id := some "S-1" }) ["L-1"]).description = none) ∧
    ((buildPayload "Fix login" "" (map_priority "High")
        (some { name := "Started", id := some "S-1" }) ["L-1"]).priority =
      map_priority "High") ∧
    ((buildPayload "Fix login" "" (map_priority "High")
        (some { name := "Started", id := some "S-1" }) ["L-1"]).state_id ≠ none) ∧
    ((buildPayload "Fix login" "" (map_priority "High")
        (some { name := "Started", id := some "S-1" }) ["L-1"]).label_ids ≠ none) ∧
    labelStep wLiveArgs wOkEnv ([], [{ name := "auth", id := none }], []) "auth" =
      .ok ([], [{ name := "auth", id := none }], []) := by
  have h := C6_payload_field_presence "Fix login" "" "High"
    (some { name := "Started", id := some "S-1" }) ["L-1"]
  exact ⟨h.1.mpr rfl, h.2.1,
    h.2.2.1.mpr ⟨{ name := "Started", id := some "S-1" }, "S-1", rfl, rfl, by decide⟩,
    h.2.2.2.1.mpr (by decide),
    h.2.2.2.2 wLiveArgs wOkEnv [] [{ name := "auth", id := none }] [] "auth"
      { name := "auth", id := none } rfl rfl⟩

/-- Counterexample to C2: with a state-creation endpoint that always
fails, the very first row's reference-entity creation failure propagates
uncaught and the whole run aborts — it is neither logged per-row nor
counted, and no later row is processed. -/
theorem C2_counterexample :
    runRows wLiveArgs wBadStateEnv wSt0 1 [wRow] = .error "state create failed" := by
  rfl

/-- C2 (amended): a record-creation failure on a row is caught, logged
with the row ordinal and its cause, counted, and the loop continues with
the remaining rows; an uncaught reference-entity creation failure instead
propagates out of the loop (see the counterexample). -/
theorem C2_record_failure_caught (args : Args) (env : Env) (st : St) (i : Nat)
    (row : Row) (rest : List Row) (sobj : Option Entity) (sc' lc' : List Entity)
    (scalls lcalls : List ApiCall) (ids : List String) (msg : String)
    (hlive : (args.dry_run || args.offline) = false)
    (hname : ¬(rowName row = ""))
    (hstate : resolveStateStep args env st.state_cache (map_state (rowStatus row)) =
      .ok (sobj, sc', scalls))
    (hlabels : labelsFold args env (parse_labels (rowLabelsRaw row) args.label_sep)
      ([], st.label_cache, []) = .ok (ids, lc', lcalls))
    (hfail : env.createIssue (rowPayload row sobj ids) = .error msg) :
    processRow args env st i row =
      .ok (failSt st sc' lc' i msg,
        scalls ++ lcalls ++ [ApiCall.createIssue (rowPayload row sobj ids)]) ∧
    (∀ stf calls2,
      runRows args env (failSt st sc' lc' i msg) (i + 1) rest = .ok (stf, calls2) →
      runRows args env st i (row :: rest) =
        .ok (stf, (scalls ++ lcalls ++ [ApiCall.createIssue (rowPayload row sobj ids)])
          ++ calls2)) := by
  have hpr : processRow args env st i row =
      .ok (failSt st sc' lc' i msg,
        scalls ++ lcalls ++ [ApiCall.createIssue (rowPayload row sobj ids)]) := by
    unfold processRow
    simp only [rowPayload, failSt] at hfail ⊢
    simp [hname, hstate, hlabels, hlive, hfail]
  refine ⟨hpr, fun stf calls2 hrun => ?_⟩
  unfold runRows
  rw [hpr]
  simp only [failSt] at hrun
  simp [hrun, failSt]

/-- Witness for C2 (amended): a failing issue POST on a minimal row leaves
the run alive with the failure logged and counted. -/
theorem C2_witness :
    runRows wLiveArgs wBadIssueEnv wSt0 1 [[("Summary", "B")]] =
      .ok (failSt wSt0 [] [] 1 "500",
        ([] ++ [] ++ [ApiCall.createIssue (rowPayload [("Summary", "B")] none [])]) ++ []) := by
  have h := C2_record_failure_caught wLiveArgs wBadIssueEnv wSt0 1 [("Summary", "B")] []
    none [] [] [] [] [] "500" rfl (by decide) rfl rfl rfl
  exact h.2 (failSt wSt0 [] [] 1 "500") [] rfl
